import Mathlib

/-!
Shallow embedding of `src/lambda/role-toggle.py`, a Discord interaction
webhook handler (AWS Lambda).  The handler verifies an Ed25519 request
signature, dispatches on the interaction `type` field, resolves a role
name to a role id through a DynamoDB lookup, and toggles the role on the
invoking guild member through the Discord REST API.

Modelling conventions:
* External I/O (DynamoDB `get_item`, Discord `GET member`, `PUT role`,
  `DELETE role`) is a record of stateful operations `Api σ`; a result is
  `ApiResult.err` when the Python call raised `requests.exceptions.RequestException`
  (connection error, timeout, or `raise_for_status` on a non-2xx reply) or,
  for DynamoDB, any exception.
* Every external call the handler issues is recorded in an observable
  trace (`Call`), so "performs no membership read/write" claims are
  statements about the trace.
* Python dictionary access `d["k"]` on a possibly missing key is an
  `Option` match whose `none` branch raises `PyExc.keyError`; an uncaught
  exception escaping `handler` is `Except.error`.
* Ed25519 itself is an oracle parameter `EdOracle` (key bytes, message,
  signature bytes → Bool); `json.loads` is an oracle
  `String → Option Interaction` (`none` = parse failure).  Everything the
  repository's own code does around those oracles is embedded literally.
-/

/-- Constant from line 14 of the source: `INTERACTION_TYPE_PING = 1`. -/
def INTERACTION_TYPE_PING : Int := 1

/-- Constant from line 15 of the source:
`INTERACTION_TYPE_APPLICATION_COMMAND = 4`. -/
def INTERACTION_TYPE_APPLICATION_COMMAND : Int := 4

/-- Constant from line 16 of the source: `INTERACTION_RESPONSE_EPHEMERAL = 64`. -/
def INTERACTION_RESPONSE_EPHEMERAL : Nat := 64

/-- One hexadecimal digit, as in Python `bytes.fromhex`. -/
def hexDigit (c : Char) : Option Nat :=
  if '0' ≤ c ∧ c ≤ '9' then some (c.toNat - '0'.toNat)
  else if 'a' ≤ c ∧ c ≤ 'f' then some (c.toNat - 'a'.toNat + 10)
  else if 'A' ≤ c ∧ c ≤ 'F' then some (c.toNat - 'A'.toNat + 10)
  else none

/-- Decode a list of characters as hex byte pairs; spaces are skipped between
pairs, as `bytes.fromhex` allows.  `none` models the `ValueError` raised on a
non-hex character or an odd number of digits. -/
def hexPairs : List Char → Option (List Nat)
  | [] => some []
  | ' ' :: rest => hexPairs rest
  | [_] => none
  | c1 :: c2 :: rest => do
      let hi ← hexDigit c1
      let lo ← hexDigit c2
      let tl ← hexPairs rest
      pure ((16 * hi + lo) :: tl)

/-- Python `bytes.fromhex` on a string: `none` models `ValueError`. -/
def hexDecode (s : String) : Option (List Nat) :=
  hexPairs s.data

/-- Dictionary lookup in a string-keyed header map (`event["headers"][k]`);
`none` models the `KeyError` on a missing key. -/
def lookupHeader (headers : List (String × String)) (k : String) : Option String :=
  (headers.find? (fun p => p.1 = k)).map Prod.snd

/-- The Python exceptions the embedded code can raise. -/
inductive PyExc where
  | keyError : String → PyExc
  | indexError : PyExc
  | valueError : PyExc
  | badSignature : PyExc
  | jsonDecodeError : PyExc
deriving DecidableEq, Repr

/-- Ed25519 verification oracle: key bytes, message (the Python code builds it
as a string and UTF-8-encodes it; encoding is injective so we keep `String`),
signature bytes. -/
def EdOracle : Type := List Nat → String → List Nat → Bool

/-- Body of the `try` block of `verify_discord_request` (source lines 48–55):
each step either succeeds or raises one of `KeyError`, `ValueError`,
`BadSignatureError` — exactly the exceptions the `except` clause on line 56
catches.  The `VerifyKey` constructor rejects keys that are not 32 bytes and
`verify` rejects signatures that are not 64 bytes, both with `ValueError`. -/
def verify_body (publicKeyHex : String) (ed : EdOracle)
    (headers : List (String × String)) (body : String) : Except PyExc Unit :=
  match lookupHeader headers "x-signature-ed25519" with
  | none => Except.error (PyExc.keyError "x-signature-ed25519")
  | some signature =>
    match lookupHeader headers "x-signature-timestamp" with
    | none => Except.error (PyExc.keyError "x-signature-timestamp")
    | some timestamp =>
      match hexDecode publicKeyHex with
      | none => Except.error PyExc.valueError
      | some keyBytes =>
        if keyBytes.length ≠ 32 then Except.error PyExc.valueError
        else
          match hexDecode signature with
          | none => Except.error PyExc.valueError
          | some sigBytes =>
            if sigBytes.length ≠ 64 then Except.error PyExc.valueError
            else if ed keyBytes (timestamp ++ body) sigBytes then Except.ok ()
            else Except.error PyExc.badSignature

/-- Source lines 46–58: `verify_discord_request`.  The `except (KeyError,
BadSignatureError, ValueError)` clause turns every exception `verify_body` can
raise into `False`, so the function is a total Boolean predicate. -/
def verify_discord_request (publicKeyHex : String) (ed : EdOracle)
    (headers : List (String × String)) (body : String) : Bool :=
  match verify_body publicKeyHex ed headers body with
  | Except.ok _ => true
  | Except.error _ => false

/-- The parsed JSON interaction body, with exactly the fields the handler
reads.  Each `Option` is `none` when the corresponding key path is missing
from the JSON object (Python would raise `KeyError`, except for
`body.get("type")`, which returns `None`). -/
structure Interaction where
  /-- `body.get("type")` -/
  interactionType : Option Int
  /-- `body["data"]["name"]` -/
  dataName : Option String
  /-- `body["guild_id"]` -/
  guildId : Option String
  /-- `body["member"]["user"]["id"]` -/
  memberUserId : Option String
  /-- `body["data"]["options"]`, each element's `["value"]` field -/
  optionValues : Option (List String)
deriving DecidableEq, Repr

/-- Result of one outbound HTTP / DynamoDB call.  `err` covers a raised
`requests.exceptions.RequestException` (connection error, timeout, or
`raise_for_status` on a non-2xx status such as 403) and, for DynamoDB, any
exception. -/
inductive ApiResult (α : Type) where
  | ok : α → ApiResult α
  | err : ApiResult α
deriving DecidableEq, Repr

/-- The external services, as stateful operations over a world state `σ`:
DynamoDB `get_item` on the role table (returns the stored `roleId`, or
`ok none` when the key is absent), Discord `GET member` (returns the member's
role-id list), and the `PUT`/`DELETE` role mutations. -/
structure Api (σ : Type) where
  dynGet : String → σ → ApiResult (Option String) × σ
  getMember : String → String → σ → ApiResult (List String) × σ
  putRole : String → String → String → σ → ApiResult Unit × σ
  delRole : String → String → String → σ → ApiResult Unit × σ

/-- Ambient context of a handler invocation: the external services, the
cached Discord public key (hex string), the Ed25519 oracle, and the JSON
parser oracle. -/
structure Ctx (σ : Type) where
  api : Api σ
  publicKeyHex : String
  ed : EdOracle
  parseJson : String → Option Interaction

/-- Observable external calls made during one handler invocation.
`parseBody` records `json.loads(event["body"])` (processing of the body has
begun); the rest are the outbound service calls. -/
inductive Call where
  | parseBody : Call
  | dynGet : String → Call
  | getMember : String → String → Call
  | putRole : String → String → String → Call
  | delRole : String → String → String → Call
deriving DecidableEq, Repr

/-- The JSON bodies the handler returns, kept structured. -/
inductive RespBody where
  /-- plain-text body (the 401 rejection) -/
  | text : String → RespBody
  /-- `json.dumps({"type": t})` (the PING acknowledgement) -/
  | pingAck : Int → RespBody
  /-- `json.dumps({"type": t, "data": {"content": c, "flags": f}})` -/
  | message : Int → String → Nat → RespBody
  /-- `json.dumps({"error": e})` -/
  | errObj : String → RespBody
deriving DecidableEq, Repr

/-- An HTTP response dict `{"statusCode": ..., "body": ...}`. -/
structure Response where
  statusCode : Nat
  body : RespBody
deriving DecidableEq, Repr

/-- The `{"statusCode": 200, "body": json.dumps({"type": 4, "data":
{"content": content, "flags": 64}})}` shape every command outcome uses. -/
def ephemeralMessage (content : String) : Response :=
  ⟨200, RespBody.message INTERACTION_TYPE_APPLICATION_COMMAND content
    INTERACTION_RESPONSE_EPHEMERAL⟩

/-- Source lines 61–67: `lookup_role_id`.  The DynamoDB call either raises
(logged, `None` returned) or returns an item payload; `resp["Item"]["roleId"]
if "Item" in resp else None` is the `ok` branch. -/
def lookup_role_id (resp : ApiResult (Option String)) : Option String :=
  match resp with
  | ApiResult.ok item => item
  | ApiResult.err => none

/-- Source lines 70–71: `user_has_role` is Python `role_id in user_roles`. -/
def user_has_role (user_roles : List String) (role_id : String) : Bool :=
  decide (role_id ∈ user_roles)

/-- Source lines 74–86: `add_role_to_user` returns `True` on a 2xx `PUT`,
`False` when `requests` raised (including `raise_for_status`). -/
def add_role_to_user (resp : ApiResult Unit) : Bool :=
  match resp with
  | ApiResult.ok _ => true
  | ApiResult.err => false

/-- Source lines 89–101: `remove_role_from_user`, same shape for `DELETE`. -/
def remove_role_from_user (resp : ApiResult Unit) : Bool :=
  match resp with
  | ApiResult.ok _ => true
  | ApiResult.err => false

/-- Outcome of one handler invocation: the returned response dict or the
uncaught Python exception, the final world state, and the trace of external
calls in issue order. -/
structure HandlerRun (σ : Type) where
  result : Except PyExc Response
  state : σ
  trace : List Call
deriving Repr

/-- Source lines 104–225: `handler(event, context)`, embedded literally.
Control flow: signature gate (107–109), `json.loads` (111), PING branch
(113–115), APPLICATION_COMMAND branch (117–219) with field extraction
(118–120), unknown-command reply (126–139), option extraction (141) —
`body["data"]["options"][0]["value"]`, which raises on a missing or empty
options list — role lookup (142–157, with Python truthiness `if not role_id`),
member read + toggle inside `try` (161–204), `RequestException` fallback
(206–219), and the final 400 for any other `type` (221–225). -/
def handler {σ : Type} (C : Ctx σ) (headers : List (String × String))
    (rawBody : String) (s : σ) : HandlerRun σ :=
  if verify_discord_request C.publicKeyHex C.ed headers rawBody = false then
    ⟨Except.ok ⟨401, RespBody.text "Invalid request signature"⟩, s, []⟩
  else
    match C.parseJson rawBody with
    | none => ⟨Except.error PyExc.jsonDecodeError, s, [Call.parseBody]⟩
    | some body =>
      if body.interactionType = some INTERACTION_TYPE_PING then
        ⟨Except.ok ⟨200, RespBody.pingAck INTERACTION_TYPE_PING⟩, s, [Call.parseBody]⟩
      else if body.interactionType = some INTERACTION_TYPE_APPLICATION_COMMAND then
        match body.dataName with
        | none => ⟨Except.error (PyExc.keyError "name"), s, [Call.parseBody]⟩
        | some command_name =>
          match body.guildId with
          | none => ⟨Except.error (PyExc.keyError "guild_id"), s, [Call.parseBody]⟩
          | some guild_id =>
            match body.memberUserId with
            | none => ⟨Except.error (PyExc.keyError "id"), s, [Call.parseBody]⟩
            | some user_id =>
              if command_name ≠ "role" then
                ⟨Except.ok (ephemeralMessage "Unknown command"), s, [Call.parseBody]⟩
              else
                match body.optionValues with
                | none => ⟨Except.error (PyExc.keyError "options"), s, [Call.parseBody]⟩
                | some [] => ⟨Except.error PyExc.indexError, s, [Call.parseBody]⟩
                | some (role_name :: _) =>
                  match lookup_role_id (C.api.dynGet role_name s).1 with
                  | none =>
                      ⟨Except.ok (ephemeralMessage ("Role '" ++ role_name ++ "' not found")),
                        (C.api.dynGet role_name s).2,
                        [Call.parseBody, Call.dynGet role_name]⟩
                  | some role_id =>
                    if role_id = "" then
                      ⟨Except.ok (ephemeralMessage ("Role '" ++ role_name ++ "' not found")),
                        (C.api.dynGet role_name s).2,
                        [Call.parseBody, Call.dynGet role_name]⟩
                    else
                      match (C.api.getMember guild_id user_id (C.api.dynGet role_name s).2).1 with
                      | ApiResult.err =>
                          ⟨Except.ok (ephemeralMessage "Error communicating with Discord API"),
                            (C.api.getMember guild_id user_id (C.api.dynGet role_name s).2).2,
                            [Call.parseBody, Call.dynGet role_name,
                              Call.getMember guild_id user_id]⟩
                      | ApiResult.ok roles =>
                        if user_has_role roles role_id then
                          ⟨Except.ok (ephemeralMessage
                              (if remove_role_from_user
                                  (C.api.delRole guild_id user_id role_id
                                    (C.api.getMember guild_id user_id
                                      (C.api.dynGet role_name s).2).2).1 then
                                "The '" ++ role_name ++ "' role was removed from you."
                              else "Failed to remove role.")),
                            (C.api.delRole guild_id user_id role_id
                              (C.api.getMember guild_id user_id
                                (C.api.dynGet role_name s).2).2).2,
                            [Call.parseBody, Call.dynGet role_name,
                              Call.getMember guild_id user_id,
                              Call.delRole guild_id user_id role_id]⟩
                        else
                          ⟨Except.ok (ephemeralMessage
                              (if add_role_to_user
                                  (C.api.putRole guild_id user_id role_id
                                    (C.api.getMember guild_id user_id
                                      (C.api.dynGet role_name s).2).2).1 then
                                "You were given the '" ++ role_name ++ "' role."
                              else "Failed to add role.")),
                            (C.api.putRole guild_id user_id role_id
                              (C.api.getMember guild_id user_id
                                (C.api.dynGet role_name s).2).2).2,
                            [Call.parseBody, Call.dynGet role_name,
                              Call.getMember guild_id user_id,
                              Call.putRole guild_id user_id role_id]⟩
      else
        ⟨Except.ok ⟨400, RespBody.errObj "Unknown interaction type"⟩, s, [Call.parseBody]⟩

/-- A call is a membership-API mutation (`PUT` or `DELETE` role). -/
def isMutationCall : Call → Bool
  | Call.putRole _ _ _ => true
  | Call.delRole _ _ _ => true
  | _ => false

/-- A call touches the membership API (read or mutation). -/
def isMembershipCall : Call → Bool
  | Call.getMember _ _ => true
  | Call.putRole _ _ _ => true
  | Call.delRole _ _ _ => true
  | _ => false

/-- A call is the role-lookup-store read. -/
def isLookupCall : Call → Bool
  | Call.dynGet _ => true
  | _ => false

/-- A 64-character hex string (decodes to the 32 zero bytes); stands in for a
concrete Discord public key in witnesses. -/
def zeros64 : String :=
  "0000000000000000000000000000000000000000000000000000000000000000"

/-- A 128-character hex string (64 zero bytes); a concrete signature value. -/
def zeros128 : String := zeros64 ++ zeros64

/-- Concrete headers carrying both Discord signature headers. -/
def okHeaders : List (String × String) :=
  [("x-signature-ed25519", zeros128), ("x-signature-timestamp", "1700000000")]

/-- Oracle that accepts every signature (a world in which the inbound request
really was signed by the configured key). -/
def edTrue : EdOracle := fun _ _ _ => true

/-- Oracle that rejects every signature. -/
def edFalse : EdOracle := fun _ _ _ => false

/-- A stateless API whose every call fails; used where the theorem at hand
must not depend on the services at all. -/
def failApi : Api Unit where
  dynGet _ s := (ApiResult.err, s)
  getMember _ _ s := (ApiResult.err, s)
  putRole _ _ _ s := (ApiResult.err, s)
  delRole _ _ _ s := (ApiResult.err, s)

/-- Membership world: the set of (guild, user, role) assignments, as a list. -/
abbrev World : Type := List (String × String × String)

/-- The role-id list Discord's `GET member` reports for `(guild, user)`. -/
def rolesOf (w : World) (guild_id user_id : String) : List String :=
  (w.filter (fun t => decide (t.1 = guild_id ∧ t.2.1 = user_id))).map
    (fun t => t.2.2)

/-- A membership API that never fails and whose reads reflect prior
successful mutations: `GET member` reports the current world, `PUT` adds the
assignment (idempotently, as the Discord endpoint is), `DELETE` removes it.
The lookup store is the pure map `store`. -/
def goodApi (store : String → Option String) : Api World where
  dynGet n s := (ApiResult.ok (store n), s)
  getMember g u s := (ApiResult.ok (rolesOf s g u), s)
  putRole g u r s :=
    (ApiResult.ok (), if (g, u, r) ∈ s then s else (g, u, r) :: s)
  delRole g u r s := (ApiResult.ok (), s.filter (fun t => decide (t ≠ (g, u, r))))

theorem mem_rolesOf (w : World) (g u r : String) :
    r ∈ rolesOf w g u ↔ (g, u, r) ∈ w := by
  unfold rolesOf
  simp only [List.mem_map, List.mem_filter, decide_eq_true_eq]
  constructor
  · rintro ⟨⟨a, b, c⟩, ⟨hmem, hg, hu⟩, hr⟩
    simp only at hg hu hr
    subst hg; subst hu; subst hr
    exact hmem
  · intro h
    exact ⟨(g, u, r), ⟨h, rfl, rfl⟩, rfl⟩

theorem verify_eq_true_iff (pub : String) (ed : EdOracle)
    (headers : List (String × String)) (body : String) :
    verify_discord_request pub ed headers body = true ↔
      ∃ sig ts keyBytes sigBytes,
        lookupHeader headers "x-signature-ed25519" = some sig ∧
        lookupHeader headers "x-signature-timestamp" = some ts ∧
        hexDecode pub = some keyBytes ∧ keyBytes.length = 32 ∧
        hexDecode sig = some sigBytes ∧ sigBytes.length = 64 ∧
        ed keyBytes (ts ++ body) sigBytes = true := by
  constructor
  · intro hv
    unfold verify_discord_request verify_body at hv
    rcases hsig : lookupHeader headers "x-signature-ed25519" with _ | sig <;>
      rw [hsig] at hv
    · simp at hv
    rcases hts : lookupHeader headers "x-signature-timestamp" with _ | ts <;>
      rw [hts] at hv
    · simp at hv
    rcases hpub : hexDecode pub with _ | kb <;> rw [hpub] at hv
    · simp at hv
    by_cases hkl : kb.length = 32
    case neg => simp [hkl] at hv
    rcases hsb : hexDecode sig with _ | sb <;> simp only [hkl] at hv <;>
      rw [hsb] at hv
    · simp at hv
    by_cases hsl : sb.length = 64
    case neg => simp [hsl] at hv
    by_cases hed : ed kb (ts ++ body) sb = true
    case neg => simp [hsl, hed] at hv
    exact ⟨sig, ts, kb, sb, rfl, rfl, rfl, hkl, hsb, hsl, hed⟩
  · rintro ⟨sig, ts, kb, sb, hsig, hts, hpub, hkl, hsb, hsl, hed⟩
    simp [verify_discord_request, verify_body, hsig, hts, hpub, hkl, hsb, hsl, hed]

/-- C5: `verify_discord_request` is a total Boolean predicate (every exception
its body can raise is caught): a missing signature or timestamp header makes
it return `false`; a hex-decoding failure of the configured public key or of
the signature makes it return `false`; and it returns `true` exactly when both
headers are present, both hex strings decode (to 32 and 64 bytes), and the
Ed25519 check accepts the message `timestamp ++ body` — concatenation with no
delimiter — under the configured key. -/
theorem c5_verify_total_and_checks_concat (pub : String) (ed : EdOracle)
    (headers : List (String × String)) (body : String) :
    ((lookupHeader headers "x-signature-ed25519" = none ∨
        lookupHeader headers "x-signature-timestamp" = none) →
      verify_discord_request pub ed headers body = false)
    ∧ (hexDecode pub = none → verify_discord_request pub ed headers body = false)
    ∧ (∀ sig, lookupHeader headers "x-signature-ed25519" = some sig →
        hexDecode sig = none → verify_discord_request pub ed headers body = false)
    ∧ (verify_discord_request pub ed headers body = true ↔
        ∃ sig ts keyBytes sigBytes,
          lookupHeader headers "x-signature-ed25519" = some sig ∧
          lookupHeader headers "x-signature-timestamp" = some ts ∧
          hexDecode pub = some keyBytes ∧ keyBytes.length = 32 ∧
          hexDecode sig = some sigBytes ∧ sigBytes.length = 64 ∧
          ed keyBytes (ts ++ body) sigBytes = true) := by
  have key := verify_eq_true_iff pub ed headers body
  refine ⟨?_, ?_, ?_, key⟩
  · intro h
    cases hb : verify_discord_request pub ed headers body
    · rfl
    · exfalso
      obtain ⟨sig, ts, kb, sb, hsig, hts, _⟩ := key.mp hb
      rcases h with h | h
      · rw [h] at hsig; exact Option.noConfusion hsig
      · rw [h] at hts; exact Option.noConfusion hts
  · intro h
    cases hb : verify_discord_request pub ed headers body
    · rfl
    · exfalso
      obtain ⟨sig, ts, kb, sb, _, _, hpub, _⟩ := key.mp hb
      rw [h] at hpub; exact Option.noConfusion hpub
  · intro sig hsig hdec
    cases hb : verify_discord_request pub ed headers body
    · rfl
    · exfalso
      obtain ⟨sig', ts, kb, sb, hsig', _, _, _, hsb, _⟩ := key.mp hb
      rw [hsig] at hsig'
      cases hsig'
      rw [hdec] at hsb; exact Option.noConfusion hsb

/-- Witness for C5 at a concrete input: with no headers at all, verification
returns `false`. -/
theorem c5_witness : verify_discord_request zeros64 edTrue [] "body" = false :=
  (c5_verify_total_and_checks_concat zeros64 edTrue [] "body").1 (Or.inl rfl)

/-- C4: when signature verification fails, the handler returns the fixed
`401` plain-text rejection, leaves the world untouched, and its call trace is
empty — in particular the body is never parsed (`json.loads` is not reached),
no lookup-store call and no membership read or write happens. -/
theorem c4_signature_failure_short_circuits {σ : Type} (C : Ctx σ)
    (headers : List (String × String)) (rawBody : String) (s : σ)
    (h : verify_discord_request C.publicKeyHex C.ed headers rawBody = false) :
    handler C headers rawBody s =
      ⟨Except.ok ⟨401, RespBody.text "Invalid request signature"⟩, s, []⟩ := by
  unfold handler
  rw [h]
  simp

/-- Witness for C4: a concrete context whose Ed25519 oracle rejects, on a
concrete request. -/
theorem c4_witness :
    handler (σ := Unit)
        ⟨failApi, zeros64, edFalse, fun _ => some ⟨some 4, some "role", some "G1",
          some "U1", some ["moderator"]⟩⟩ okHeaders "rawbody" () =
      ⟨Except.ok ⟨401, RespBody.text "Invalid request signature"⟩, (), []⟩ :=
  c4_signature_failure_short_circuits _ okHeaders "rawbody" () (by rfl)

/-- JSON text of a type-2 interaction — Discord's (and the spec's)
APPLICATION_COMMAND interaction type. -/
def rawType2 : String :=
  "\x7b\"type\": 2, \"guild_id\": \"G1\", \"member\": \x7b\"user\": \x7b\"id\": \"U1\"\x7d\x7d, \"data\": \x7b\"name\": \"role\", \"options\": [\x7b\"value\": \"moderator\"\x7d]\x7d\x7d"

/-- The same command body but with `"type": 4` — the value the source's
`INTERACTION_TYPE_APPLICATION_COMMAND` constant actually holds. -/
def rawType4 : String :=
  "\x7b\"type\": 4, \"guild_id\": \"G1\", \"member\": \x7b\"user\": \x7b\"id\": \"U1\"\x7d\x7d, \"data\": \x7b\"name\": \"role\", \"options\": [\x7b\"value\": \"moderator\"\x7d]\x7d\x7d"

/-- A type-4 `role` command whose `options` list is empty. -/
def rawOptsEmpty : String :=
  "\x7b\"type\": 4, \"guild_id\": \"G1\", \"member\": \x7b\"user\": \x7b\"id\": \"U1\"\x7d\x7d, \"data\": \x7b\"name\": \"role\", \"options\": []\x7d\x7d"

/-- A type-4 `role` command with no `options` key at all. -/
def rawOptsAbsent : String :=
  "\x7b\"type\": 4, \"guild_id\": \"G1\", \"member\": \x7b\"user\": \x7b\"id\": \"U1\"\x7d\x7d, \"data\": \x7b\"name\": \"role\"\x7d\x7d"

/-- A type-4 `role` command with no `guild_id` key (as in a direct-message
interaction). -/
def rawNoGuild : String :=
  "\x7b\"type\": 4, \"member\": \x7b\"user\": \x7b\"id\": \"U1\"\x7d\x7d, \"data\": \x7b\"name\": \"role\", \"options\": [\x7b\"value\": \"moderator\"\x7d]\x7d\x7d"

/-- The parsed form of `rawType4` (and, apart from the `type` field, of
`rawType2`). -/
def interactionModerator : Interaction :=
  ⟨some 4, some "role", some "G1", some "U1", some ["moderator"]⟩

/-- JSON parser oracle covering the concrete bodies used in closed theorems,
mapping each raw text to its parsed form. -/
def parseFixtures : String → Option Interaction := fun s =>
  if s = rawType2 then some ⟨some 2, some "role", some "G1", some "U1", some ["moderator"]⟩
  else if s = rawType4 then some interactionModerator
  else if s = rawOptsEmpty then some ⟨some 4, some "role", some "G1", some "U1", some []⟩
  else if s = rawOptsAbsent then some ⟨some 4, some "role", some "G1", some "U1", none⟩
  else if s = rawNoGuild then some ⟨some 4, some "role", none, some "U1", some ["moderator"]⟩
  else none

/-- Concrete context: accepting signature oracle, failing external services
(the DynamoDB lookup therefore resolves to "not found"). -/
def ctxFixtures : Ctx Unit := ⟨failApi, zeros64, edTrue, parseFixtures⟩

/-- C1 (code bug): a verified body with `"type": 2` — the spec's (and
Discord's) ApplicationCommand interaction type — is NOT classified as a
command: the source sets `INTERACTION_TYPE_APPLICATION_COMMAND = 4` (which is
Discord's *response-callback* type CHANNEL_MESSAGE_WITH_SOURCE), so the
type-2 body falls through to the 400 "Unknown interaction type" rejection,
while a body with `"type": 4` — neither 1 nor 2 — receives a normal 200
command response instead of the 400. -/
theorem c1_type2_rejected_type4_dispatched :
    handler ctxFixtures okHeaders rawType2 () =
      ⟨Except.ok ⟨400, RespBody.errObj "Unknown interaction type"⟩, (), [Call.parseBody]⟩
    ∧ (handler ctxFixtures okHeaders rawType4 ()).result =
      Except.ok (ephemeralMessage ("Role '" ++ "moderator" ++ "' not found")) := by
  exact ⟨rfl, rfl⟩

/-- C2 (code bug): a verified `role` command with an empty `options` list
makes line 141 (`body["data"]["options"][0]["value"]`) raise an uncaught
`IndexError`, and one with no `options` key an uncaught `KeyError`: no
"role name missing" response exists anywhere in the source.  No external
mutation happens (the trace stops at `json.loads`). -/
theorem c2_missing_option_value_is_uncaught :
    handler ctxFixtures okHeaders rawOptsEmpty () =
      ⟨Except.error PyExc.indexError, (), [Call.parseBody]⟩
    ∧ handler ctxFixtures okHeaders rawOptsAbsent () =
      ⟨Except.error (PyExc.keyError "options"), (), [Call.parseBody]⟩ := by
  exact ⟨rfl, rfl⟩

/-- C3 (code bug): a verified, signature-accepted request can escape the
handler as an uncaught exception: a type-4 `role` command without a
`guild_id` key (line 119, `body["guild_id"]`) raises `KeyError`, so not every
accepted request yields a response or the HTTP-level rejection. -/
theorem c3_accepted_request_can_fault :
    handler ctxFixtures okHeaders rawNoGuild () =
      ⟨Except.error (PyExc.keyError "guild_id"), (), [Call.parseBody]⟩ := rfl

/-- C9: a verified ApplicationCommand (the source's type 4) whose command
name is not "role" gets the ephemeral "Unknown command" response; the trace
contains only the `json.loads` step — no lookup-store call and no membership
read or write. -/
theorem c9_unknown_command_touches_nothing {σ : Type} (C : Ctx σ)
    (headers : List (String × String)) (rawBody : String) (s : σ)
    (body : Interaction) (cn g u : String)
    (hv : verify_discord_request C.publicKeyHex C.ed headers rawBody = true)
    (hp : C.parseJson rawBody = some body)
    (ht : body.interactionType = some INTERACTION_TYPE_APPLICATION_COMMAND)
    (hn : body.dataName = some cn)
    (hcn : cn ≠ "role")
    (hg : body.guildId = some g)
    (hu : body.memberUserId = some u) :
    handler C headers rawBody s =
      ⟨Except.ok (ephemeralMessage "Unknown command"), s, [Call.parseBody]⟩ := by
  unfold handler
  rw [hv, hp]
  simp [ht, hn, hg, hu, hcn, INTERACTION_TYPE_PING, INTERACTION_TYPE_APPLICATION_COMMAND]

/-- Witness for C9 at a concrete input: command name "ping". -/
theorem c9_witness :
    handler (σ := Unit)
        ⟨failApi, zeros64, edTrue,
          fun _ => some ⟨some 4, some "ping", some "G1", some "U1", none⟩⟩
        okHeaders "raw" () =
      ⟨Except.ok (ephemeralMessage "Unknown command"), (), [Call.parseBody]⟩ :=
  c9_unknown_command_touches_nothing _ okHeaders "raw" ()
    ⟨some 4, some "ping", some "G1", some "U1", none⟩ "ping" "G1" "U1"
    (by rfl) rfl rfl rfl (by decide) rfl rfl

/-- C8: on a recognized `role` command, when the lookup store has no entry
for the role name (`ok none`) or the lookup call fails (`err` — both folded
into `None` by `lookup_role_id`), the handler returns the identical ephemeral
"Role '<name>' not found" response, and the trace ends at the lookup call: no
membership read and no membership write. -/
theorem c8_not_found_and_lookup_failure_identical {σ : Type} (C : Ctx σ)
    (headers : List (String × String)) (rawBody : String) (s : σ)
    (body : Interaction) (g u rn : String) (rest : List String)
    (hv : verify_discord_request C.publicKeyHex C.ed headers rawBody = true)
    (hp : C.parseJson rawBody = some body)
    (ht : body.interactionType = some INTERACTION_TYPE_APPLICATION_COMMAND)
    (hn : body.dataName = some "role")
    (hg : body.guildId = some g)
    (hu : body.memberUserId = some u)
    (ho : body.optionValues = some (rn :: rest))
    (hd : (C.api.dynGet rn s).1 = ApiResult.ok none ∨
          (C.api.dynGet rn s).1 = ApiResult.err) :
    handler C headers rawBody s =
      ⟨Except.ok (ephemeralMessage ("Role '" ++ rn ++ "' not found")),
        (C.api.dynGet rn s).2, [Call.parseBody, Call.dynGet rn]⟩
    ∧ ∀ c ∈ (handler C headers rawBody s).trace, isMembershipCall c = false := by
  have hnone : lookup_role_id (C.api.dynGet rn s).1 = none := by
    rcases hd with hd | hd <;> rw [hd] <;> rfl
  have hrun : handler C headers rawBody s =
      ⟨Except.ok (ephemeralMessage ("Role '" ++ rn ++ "' not found")),
        (C.api.dynGet rn s).2, [Call.parseBody, Call.dynGet rn]⟩ := by
    unfold handler
    rw [hv, hp]
    simp [ht, hn, hg, hu, ho, hnone,
      INTERACTION_TYPE_PING, INTERACTION_TYPE_APPLICATION_COMMAND]
  refine ⟨hrun, ?_⟩
  rw [hrun]
  intro c hc
  simp only [List.mem_cons, List.not_mem_nil, or_false] at hc
  rcases hc with hc | hc <;> subst hc <;> rfl

/-- Witness for C8 at a concrete input: the lookup call itself fails
(`failApi`), and the handler still answers "not found" with no membership
call. -/
theorem c8_witness :
    handler (σ := Unit) ⟨failApi, zeros64, edTrue, fun _ => some interactionModerator⟩
        okHeaders "raw" () =
      ⟨Except.ok (ephemeralMessage ("Role '" ++ "moderator" ++ "' not found")),
        (), [Call.parseBody, Call.dynGet "moderator"]⟩ :=
  (c8_not_found_and_lookup_failure_identical _ okHeaders "raw" ()
    interactionModerator "G1" "U1" "moderator" []
    (by rfl) rfl rfl rfl rfl rfl rfl (Or.inr rfl)).1

/-- C10: when the lookup store maps the role name to the empty string, the
`if not role_id` truthiness test (line 144) takes the not-found branch
exactly as for an absent key: ephemeral "not found" response, no membership
read or write. -/
theorem c10_empty_string_role_id_is_not_found {σ : Type} (C : Ctx σ)
    (headers : List (String × String)) (rawBody : String) (s : σ)
    (body : Interaction) (g u rn : String) (rest : List String)
    (hv : verify_discord_request C.publicKeyHex C.ed headers rawBody = true)
    (hp : C.parseJson rawBody = some body)
    (ht : body.interactionType = some INTERACTION_TYPE_APPLICATION_COMMAND)
    (hn : body.dataName = some "role")
    (hg : body.guildId = some g)
    (hu : body.memberUserId = some u)
    (ho : body.optionValues = some (rn :: rest))
    (hd : (C.api.dynGet rn s).1 = ApiResult.ok (some "")) :
    handler C headers rawBody s =
      ⟨Except.ok (ephemeralMessage ("Role '" ++ rn ++ "' not found")),
        (C.api.dynGet rn s).2, [Call.parseBody, Call.dynGet rn]⟩ := by
  unfold handler
  rw [hv, hp]
  simp [ht, hn, hg, hu, ho, hd, lookup_role_id,
    INTERACTION_TYPE_PING, INTERACTION_TYPE_APPLICATION_COMMAND]

/-- API whose lookup store maps every role name to the empty string. -/
def apiEmptyRoleId : Api Unit where
  dynGet _ s := (ApiResult.ok (some ""), s)
  getMember _ _ s := (ApiResult.ok [], s)
  putRole _ _ _ s := (ApiResult.ok (), s)
  delRole _ _ _ s := (ApiResult.ok (), s)

/-- Witness for C10 at a concrete input. -/
theorem c10_witness :
    handler (σ := Unit) ⟨apiEmptyRoleId, zeros64, edTrue,
        fun _ => some interactionModerator⟩ okHeaders "raw" () =
      ⟨Except.ok (ephemeralMessage ("Role '" ++ "moderator" ++ "' not found")),
        (), [Call.parseBody, Call.dynGet "moderator"]⟩ :=
  c10_empty_string_role_id_is_not_found _ okHeaders "raw" ()
    interactionModerator "G1" "U1" "moderator" []
    (by rfl) rfl rfl rfl rfl rfl rfl rfl

/-- C6: when the role resolves but the membership read (`GET member`) fails —
connection error, timeout, or non-2xx — the handler answers with the
error-communicating ephemeral response and the trace contains no `PUT` and no
`DELETE`: a failed read is never treated as "role absent" and never defaults
to add. -/
theorem c6_member_read_failure_no_mutation {σ : Type} (C : Ctx σ)
    (headers : List (String × String)) (rawBody : String) (s : σ)
    (body : Interaction) (g u rn rid : String) (rest : List String)
    (hv : verify_discord_request C.publicKeyHex C.ed headers rawBody = true)
    (hp : C.parseJson rawBody = some body)
    (ht : body.interactionType = some INTERACTION_TYPE_APPLICATION_COMMAND)
    (hn : body.dataName = some "role")
    (hg : body.guildId = some g)
    (hu : body.memberUserId = some u)
    (ho : body.optionValues = some (rn :: rest))
    (hd : (C.api.dynGet rn s).1 = ApiResult.ok (some rid))
    (hrid : rid ≠ "")
    (hm : (C.api.getMember g u (C.api.dynGet rn s).2).1 = ApiResult.err) :
    handler C headers rawBody s =
      ⟨Except.ok (ephemeralMessage "Error communicating with Discord API"),
        (C.api.getMember g u (C.api.dynGet rn s).2).2,
        [Call.parseBody, Call.dynGet rn, Call.getMember g u]⟩
    ∧ ∀ c ∈ (handler C headers rawBody s).trace, isMutationCall c = false := by
  have hrun : handler C headers rawBody s =
      ⟨Except.ok (ephemeralMessage "Error communicating with Discord API"),
        (C.api.getMember g u (C.api.dynGet rn s).2).2,
        [Call.parseBody, Call.dynGet rn, Call.getMember g u]⟩ := by
    unfold handler
    rw [hv, hp]
    simp [ht, hn, hg, hu, ho, hd, hm, hrid, lookup_role_id,
      INTERACTION_TYPE_PING, INTERACTION_TYPE_APPLICATION_COMMAND]
  refine ⟨hrun, ?_⟩
  rw [hrun]
  intro c hc
  simp only [List.mem_cons, List.not_mem_nil, or_false] at hc
  rcases hc with hc | hc | hc <;> subst hc <;> rfl

/-- API where the role lookup succeeds but the membership read fails. -/
def apiMemberReadFails : Api Unit where
  dynGet _ s := (ApiResult.ok (some "R1"), s)
  getMember _ _ s := (ApiResult.err, s)
  putRole _ _ _ s := (ApiResult.ok (), s)
  delRole _ _ _ s := (ApiResult.ok (), s)

/-- Witness for C6 at a concrete input. -/
theorem c6_witness :
    handler (σ := Unit) ⟨apiMemberReadFails, zeros64, edTrue,
        fun _ => some interactionModerator⟩ okHeaders "raw" () =
      ⟨Except.ok (ephemeralMessage "Error communicating with Discord API"),
        (), [Call.parseBody, Call.dynGet "moderator", Call.getMember "G1" "U1"]⟩ :=
  (c6_member_read_failure_no_mutation _ okHeaders "raw" ()
    interactionModerator "G1" "U1" "moderator" "R1" []
    (by rfl) rfl rfl rfl rfl rfl rfl rfl (by decide) rfl).1

theorem goodApi_step_add (store : String → Option String) (C : Ctx World)
    (headers : List (String × String)) (rawBody : String) (w : World)
    (body : Interaction) (g u rn rid : String) (rest : List String)
    (hC : C.api = goodApi store)
    (hv : verify_discord_request C.publicKeyHex C.ed headers rawBody = true)
    (hp : C.parseJson rawBody = some body)
    (ht : body.interactionType = some INTERACTION_TYPE_APPLICATION_COMMAND)
    (hn : body.dataName = some "role")
    (hg : body.guildId = some g)
    (hu : body.memberUserId = some u)
    (ho : body.optionValues = some (rn :: rest))
    (hs : store rn = some rid)
    (hrid : rid ≠ "")
    (h0 : (g, u, rid) ∉ w) :
    handler C headers rawBody w =
      ⟨Except.ok (ephemeralMessage ("You were given the '" ++ rn ++ "' role.")),
        (g, u, rid) :: w,
        [Call.parseBody, Call.dynGet rn, Call.getMember g u,
          Call.putRole g u rid]⟩ := by
  have hmem : rid ∉ rolesOf w g u := fun hm => h0 ((mem_rolesOf w g u rid).mp hm)
  unfold handler
  rw [hv, hp, hC]
  simp [goodApi, ht, hn, hg, hu, ho, hs, hrid, lookup_role_id, user_has_role,
    add_role_to_user, hmem, h0,
    INTERACTION_TYPE_PING, INTERACTION_TYPE_APPLICATION_COMMAND]

theorem goodApi_step_remove (store : String → Option String) (C : Ctx World)
    (headers : List (String × String)) (rawBody : String) (w : World)
    (body : Interaction) (g u rn rid : String) (rest : List String)
    (hC : C.api = goodApi store)
    (hv : verify_discord_request C.publicKeyHex C.ed headers rawBody = true)
    (hp : C.parseJson rawBody = some body)
    (ht : body.interactionType = some INTERACTION_TYPE_APPLICATION_COMMAND)
    (hn : body.dataName = some "role")
    (hg : body.guildId = some g)
    (hu : body.memberUserId = some u)
    (ho : body.optionValues = some (rn :: rest))
    (hs : store rn = some rid)
    (hrid : rid ≠ "")
    (h1 : (g, u, rid) ∈ w) :
    handler C headers rawBody w =
      ⟨Except.ok (ephemeralMessage ("The '" ++ rn ++ "' role was removed from you.")),
        w.filter (fun t => decide (t ≠ (g, u, rid))),
        [Call.parseBody, Call.dynGet rn, Call.getMember g u,
          Call.delRole g u rid]⟩ := by
  have hmem : rid ∈ rolesOf w g u := (mem_rolesOf w g u rid).mpr h1
  unfold handler
  rw [hv, hp, hC]
  simp [goodApi, ht, hn, hg, hu, ho, hs, hrid, lookup_role_id, user_has_role,
    remove_role_from_user, hmem,
    INTERACTION_TYPE_PING, INTERACTION_TYPE_APPLICATION_COMMAND]

/-- C7: against a membership API whose reads reflect prior successful
mutations (`goodApi`) and with no concurrent interleaving, invoking the same
verified `role` command three times in sequence for a user who initially does
not hold the role yields Added ("You were given ..."), then Removed
("The ... role was removed from you."), then Added again; each direction is
decided solely by membership of the role id in the single snapshot read. -/
theorem c7_sequential_toggle_alternates (store : String → Option String)
    (C : Ctx World) (headers : List (String × String)) (rawBody : String)
    (w0 : World) (body : Interaction) (g u rn rid : String) (rest : List String)
    (hC : C.api = goodApi store)
    (hv : verify_discord_request C.publicKeyHex C.ed headers rawBody = true)
    (hp : C.parseJson rawBody = some body)
    (ht : body.interactionType = some INTERACTION_TYPE_APPLICATION_COMMAND)
    (hn : body.dataName = some "role")
    (hg : body.guildId = some g)
    (hu : body.memberUserId = some u)
    (ho : body.optionValues = some (rn :: rest))
    (hs : store rn = some rid)
    (hrid : rid ≠ "")
    (h0 : rid ∉ rolesOf w0 g u) :
    (handler C headers rawBody w0).result =
      Except.ok (ephemeralMessage ("You were given the '" ++ rn ++ "' role."))
    ∧ (handler C headers rawBody (handler C headers rawBody w0).state).result =
      Except.ok (ephemeralMessage ("The '" ++ rn ++ "' role was removed from you."))
    ∧ (handler C headers rawBody
        (handler C headers rawBody (handler C headers rawBody w0).state).state).result =
      Except.ok (ephemeralMessage ("You were given the '" ++ rn ++ "' role.")) := by
  have h0' : (g, u, rid) ∉ w0 := fun h => h0 ((mem_rolesOf w0 g u rid).mpr h)
  have e1 := goodApi_step_add store C headers rawBody w0 body g u rn rid rest
    hC hv hp ht hn hg hu ho hs hrid h0'
  have h1 : (g, u, rid) ∈ (g, u, rid) :: w0 := List.mem_cons_self _ _
  have e2 := goodApi_step_remove store C headers rawBody ((g, u, rid) :: w0)
    body g u rn rid rest hC hv hp ht hn hg hu ho hs hrid h1
  have h2 : (g, u, rid) ∉
      ((g, u, rid) :: w0).filter (fun t => decide (t ≠ (g, u, rid))) := by
    intro hin
    have := (List.mem_filter.mp hin).2
    simp at this
  have e3 := goodApi_step_add store C headers rawBody
    (((g, u, rid) :: w0).filter (fun t => decide (t ≠ (g, u, rid))))
    body g u rn rid rest hC hv hp ht hn hg hu ho hs hrid h2
  refine ⟨?_, ?_, ?_⟩ <;> simp only [e1, e2, e3]

/-- Lookup store used in concrete toggle runs: only "moderator", mapped to
role id "R1". -/
def storeModerator : String → Option String :=
  fun n => if n = "moderator" then some "R1" else none

/-- Concrete context over the consistent world: accepting signature oracle,
`goodApi` services, parser recognizing the type-4 command body. -/
def ctxGoodWorld : Ctx World :=
  ⟨goodApi storeModerator, zeros64, edTrue,
    fun s => if s = rawType4 then some interactionModerator else none⟩

/-- Witness for C7: the concrete end-to-end scenario (role "moderator", id
"R1", user "U1" in guild "G1", initially no roles). -/
theorem c7_witness :
    (handler ctxGoodWorld okHeaders rawType4 ([] : World)).result =
      Except.ok (ephemeralMessage ("You were given the '" ++ "moderator" ++ "' role."))
    ∧ (handler ctxGoodWorld okHeaders rawType4
        (handler ctxGoodWorld okHeaders rawType4 ([] : World)).state).result =
      Except.ok (ephemeralMessage ("The '" ++ "moderator" ++ "' role was removed from you."))
    ∧ (handler ctxGoodWorld okHeaders rawType4
        (handler ctxGoodWorld okHeaders rawType4
          (handler ctxGoodWorld okHeaders rawType4 ([] : World)).state).state).result =
      Except.ok (ephemeralMessage ("You were given the '" ++ "moderator" ++ "' role.")) :=
  c7_sequential_toggle_alternates storeModerator ctxGoodWorld okHeaders rawType4
    ([] : World) interactionModerator "G1" "U1" "moderator" "R1" []
    rfl (by rfl) (by rfl) rfl rfl rfl rfl rfl rfl (by decide) (by simp [rolesOf])
